import Mathlib

/-!
Verification of the thermal-analysis notebook
(`notebooks/thermal/Thermal.ipynb`).

The notebook is configuration plus a handful of assertion invocations
against two external libraries (trappy and `bart.common.Analyzer`).
The libraries themselves are not part of the repository, so their
statement evaluator is modelled from the specification: `getStatement`
with `reference=True` returns the selected trace rows on which the
boolean statement holds, and `assertStatement` returns the truth value
of the statement.  The notebook's own code — the config dictionary, the
`if len(result)` pass/fail prints, the literal statement strings — is
embedded directly from the source.

Two views of the notebook are developed:
  * a semantic view (`notebookOutputWith` and the per-check functions),
    mapping an input trace to the lines the notebook prints and the
    values its cells display;
  * a syntactic view (`thermalNotebook : List Stmt`), a transcription
    of the notebook's top-level statements, used for claims about
    imports, call counts and variable rebinding.
-/

namespace ThermalNB

/-- The trappy event classes the notebook's config binds to short names. -/
inductive TrappyEventClass
  | thermal
  | cpuOutPower
  | cpuInPower
  | pidController
  | thermalGovernor
deriving DecidableEq, Repr

/-- A value stored in the notebook's config dictionary: either a trappy
event class or a number. -/
inductive ConfigValue
  | event (cls : TrappyEventClass)
  | num (n : Int)
deriving DecidableEq, Repr

/-- The config dictionary, as an association list in insertion order. -/
abbrev Config := List (String × ConfigValue)

/-- Numeric lookup in the config.  The notebook only looks up keys it has
set, so the default branch is never reached in its executions. -/
def configNum (c : Config) (k : String) : Int :=
  match List.lookup k c with
  | some (ConfigValue.num n) => n
  | _ => 0

/-- Event-class bindings of a config, in insertion order. -/
def configEvents (c : Config) : List (String × TrappyEventClass) :=
  c.filterMap fun p =>
    match p.2 with
    | ConfigValue.event cls => some (p.1, cls)
    | ConfigValue.num _ => none

/-- The notebook's config with the two statistics-related entries left as
parameters; `EXPECTED_TEMP_QRT` and `EXPECTED_STD_PCT` are set to `qrt`
and `stdPct`, every other entry is as in the source. -/
def thermalConfigWith (qrt stdPct : Int) : Config :=
  [("THERMAL", ConfigValue.event TrappyEventClass.thermal),
   ("OUT", ConfigValue.event TrappyEventClass.cpuOutPower),
   ("IN", ConfigValue.event TrappyEventClass.cpuInPower),
   ("PID", ConfigValue.event TrappyEventClass.pidController),
   ("GOVERNOR", ConfigValue.event TrappyEventClass.thermalGovernor),
   ("CONTROL_TEMP", ConfigValue.num 77000),
   ("TEMP_MARGIN", ConfigValue.num 2500),
   ("SUSTAINABLE_POWER", ConfigValue.num 2500),
   ("EXPECTED_TEMP_QRT", ConfigValue.num qrt),
   ("EXPECTED_STD_PCT", ConfigValue.num stdPct)]

/-- The config exactly as the notebook's first cell builds it. -/
def thermalConfig : Config := thermalConfigWith 95 5

/-- A row of the `IN` (`trappy.cpu_power.CpuInPower`) event: the per-CPU
loads and the dynamic power, pivoted on the `cpus` mask. -/
structure CpuInPowerSample where
  cpus : String
  load0 : Int
  load1 : Int
  load2 : Int
  load3 : Int
  dynamic_power : Int
deriving DecidableEq, Repr

/-- A joined row of the `GOVERNOR` (`ThermalGovernor`) and `PID`
(`PIDController`) events at a common index: the governor's current
temperature and the PID's granted power output, pivoted on a zone id. -/
structure GovPidSample where
  id : Int
  current_temperature : Int
  output : Int
deriving DecidableEq, Repr

/-- A row of the `THERMAL` (`trappy.thermal.Thermal`) event. -/
structure ThermalSample where
  id : Int
  temp : ℚ
deriving DecidableEq, Repr

/-- An input trace, holding the event rows the notebook's statements
refer to. -/
structure Run where
  inPower : List CpuInPowerSample
  govPid : List GovPidSample
  thermal : List ThermalSample
deriving DecidableEq, Repr

/-- Insert into a sorted list, keeping it sorted ascending. -/
def insertSorted (x : ℚ) : List ℚ → List ℚ
  | [] => [x]
  | y :: ys => if x ≤ y then x :: y :: ys else y :: insertSorted x ys

/-- Sort ascending (insertion sort). -/
def sortAsc (xs : List ℚ) : List ℚ := xs.foldr insertSorted []

/-- Modelled from the spec: the `numpy.percentile` computation the
statement strings delegate to the external evaluator — sort the data and
linearly interpolate at rank `q / 100 * (n - 1)` (numpy's default
method); numpy is not part of the repository. -/
def npPercentile (xs : List ℚ) (q : ℚ) : ℚ :=
  match sortAsc xs with
  | [] => 0
  | s =>
      let n := s.length
      let pos : ℚ := q * ((n : ℚ) - 1) / 100
      let i : Nat := pos.floor.toNat
      let lo := s.getD i 0
      let hi := s.getD (i + 1) lo
      lo + (pos - (i : ℚ)) * (hi - lo)

/-- Modelled from the spec: `numpy.mean`, the arithmetic mean; numpy is
not part of the repository. -/
def npMean (xs : List ℚ) : ℚ := xs.sum / (xs.length : ℚ)

/-- Modelled from the spec: the mean squared deviation, whose square
root is `numpy.std`; numpy is not part of the repository. -/
def npVariance (xs : List ℚ) : ℚ :=
  ((xs.map fun x => (x - npMean xs) ^ 2).sum) / (xs.length : ℚ)

/-- Modelled from the spec: `numpy.std` is the square root of the mean
squared deviation; the square root itself (a floating-point operation of
the external library) is abstracted as the parameter `sq`. -/
def npStd (sq : ℚ → ℚ) (xs : List ℚ) : ℚ := sq (npVariance xs)

/-- The assertion object: `t = Analyzer(run, config)`.  Modelled from the
spec: the Analyzer holds the trace and the config and evaluates
statement strings against them; `bart.common.Analyzer` is not part of
the repository. -/
structure Analyzer where
  run : Run
  config : Config
deriving DecidableEq, Repr

/-- `BIG = '000000f0'` from the notebook. -/
def BIG : String := "000000f0"

/-- `LITTLE = '0000000f'` from the notebook. -/
def LITTLE : String := "0000000f"

/-- Modelled from the spec: `t.getStatement("((IN:load0 + IN:load1 +
IN:load2 + IN:load3) == 0) & (IN:dynamic_power > 0)", reference=True,
select=...)` — the rows of the `IN` event restricted to the given `cpus`
mask on which the statement holds. -/
def Analyzer.loadPowerStatement (a : Analyzer) (select : String) :
    List CpuInPowerSample :=
  (a.run.inPower.filter fun s => s.cpus == select).filter fun s =>
    decide (s.load0 + s.load1 + s.load2 + s.load3 = 0 ∧ 0 < s.dynamic_power)

/-- The boolean statement `(GOVERNOR:current_temperature > CONTROL_TEMP)
& (PID:output > SUSTAINABLE_POWER)` on one joined row, config names
resolved through the given config. -/
def governorPred (cfg : Config) (s : GovPidSample) : Bool :=
  decide (configNum cfg "CONTROL_TEMP" < s.current_temperature ∧
          configNum cfg "SUSTAINABLE_POWER" < s.output)

/-- Modelled from the spec: `t.getStatement("(GOVERNOR:current_temperature
> CONTROL_TEMP) & (PID:output > SUSTAINABLE_POWER)", reference=True,
select=0)` — the joined governor/PID rows with id 0 on which the
statement holds, config names resolved through the Analyzer's config. -/
def Analyzer.governorStatement (a : Analyzer) : List GovPidSample :=
  (a.run.govPid.filter fun s => s.id == 0).filter (governorPred a.config)

/-- Modelled from the spec: `t.assertStatement("numpy.percentile(
THERMAL:temp, 95) < (CONTROL_TEMP + TEMP_MARGIN)")` — the truth value of
the statement over all `THERMAL` rows. -/
def Analyzer.percentileAssert (a : Analyzer) : Bool :=
  decide (npPercentile (a.run.thermal.map ThermalSample.temp) 95 <
    ((configNum a.config "CONTROL_TEMP" + configNum a.config "TEMP_MARGIN" : Int) : ℚ))

/-- Modelled from the spec: `t.assertStatement("numpy.mean(THERMAL:temp)
<= CONTROL_TEMP", select=0)` — the truth value of the statement over the
`THERMAL` rows with id 0. -/
def Analyzer.meanAssert (a : Analyzer) : Bool :=
  decide (npMean ((a.run.thermal.filter fun s => s.id == 0).map ThermalSample.temp) ≤
    ((configNum a.config "CONTROL_TEMP" : Int) : ℚ))

/-- Modelled from the spec: `t.getStatement("(numpy.std(THERMAL:temp) *
100.0) / numpy.mean(THERMAL:temp)", select=0)` — the standard deviation
as a percentage of the mean, over the `THERMAL` rows with id 0. -/
def Analyzer.stdPctStatement (a : Analyzer) (sq : ℚ → ℚ) : ℚ :=
  let temps := (a.run.thermal.filter fun s => s.id == 0).map ThermalSample.temp
  npStd sq temps * 100 / npMean temps

/-- `t = Analyzer(run, config)` with the notebook's config. -/
def t (run : Run) : Analyzer := Analyzer.mk run thermalConfig

/-- The source's `if len(result): print failMsg else: print passMsg`
pattern: the one line such a check prints. -/
def checkLines {α : Type} (result : List α) (failMsg passMsg : String) :
    List String :=
  if result.length != 0 then [failMsg] else [passMsg]

def bigPassMsg : String :=
  "PASS: Dynamic Power is Zero when load is Zero for the BIG cluster"

def bigFailMsg : String :=
  "FAIL: Dynamic Power is NOT Zero when load is Zero for the BIG cluster"

def littlePassMsg : String :=
  "PASS: Dynamic Power is Zero when load is Zero for the LITTLE cluster"

def littleFailMsg : String :=
  "FAIL: Dynamic Power is NOT Zero when load is Zero for the LITTLE cluster"

def govPassMsg : String :=
  "PASS: The Governor is allocating power <= sustainable when T > CONTROL_TEMP"

def govFailMsg : String :=
  "FAIL: The Governor is allocating power > sustainable when T > CONTROL_TEMP"

/-- The line printed by the first (BIG-cluster) load/dynamic-power check. -/
def bigClusterLines (run : Run) : List String :=
  checkLines ((t run).loadPowerStatement BIG) bigFailMsg bigPassMsg

/-- The line printed by the second load/dynamic-power check, whose
messages mention the LITTLE cluster; as in the source, its `getStatement`
call passes `select=BIG`. -/
def littleLabelledLines (run : Run) : List String :=
  checkLines ((t run).loadPowerStatement BIG) littleFailMsg littlePassMsg

/-- The line printed by the governor/sustainable-power check. -/
def governorLines (run : Run) : List String :=
  checkLines ((t run).governorStatement) govFailMsg govPassMsg

/-- One element of the notebook's visible output: a printed line, a
displayed boolean result, or a displayed numeric result. -/
inductive Output
  | line (s : String)
  | boolResult (b : Bool)
  | numResult (q : ℚ)
deriving DecidableEq, Repr

/-- The notebook's visible output as a function of the abstract square
root, the config and the trace: the three check lines in order, then the
two displayed assertion results, then the displayed std/mean percentage. -/
def notebookOutputWith (sq : ℚ → ℚ) (cfg : Config) (run : Run) : List Output :=
  let a := Analyzer.mk run cfg
  (checkLines (a.loadPowerStatement BIG) bigFailMsg bigPassMsg ++
   checkLines (a.loadPowerStatement BIG) littleFailMsg littlePassMsg ++
   checkLines a.governorStatement govFailMsg govPassMsg).map Output.line ++
  [Output.boolResult a.percentileAssert,
   Output.boolResult a.meanAssert,
   Output.numResult (a.stdPctStatement sq)]

/-! ### Syntactic view of the notebook -/

/-- The `select=` argument of a statement-evaluation call: absent, a
string (a cpumask), or a number (a zone id). -/
inductive SelectArg
  | noSelect
  | str (s : String)
  | num (n : Int)
deriving DecidableEq, Repr

/-- A statement-evaluation call on the Analyzer: the method name, the
statement string exactly as the source spells it (with the spaces the
backslash line continuations leave behind), the `reference` flag and the
`select` argument, with Python defaults filled in where the source omits
them. -/
structure Call where
  method : String
  statement : String
  reference : Bool
  select : SelectArg
deriving DecidableEq, Repr

/-- A top-level statement of the notebook, as transcribed from the
source cells in order. -/
inductive Stmt
  | importModule (module : String)
  | assign (var : String)
  | configSet (key : String) (value : ConfigValue)
  | loadRun (var : String) (path : String) (benchmark : String)
  | mkAnalyzer (var : String) (runVar : String) (configVar : String)
  | callStmt (bind : Option String) (call : Call)
  | printIfElse (var : String) (failMsg : String) (passMsg : String)
deriving DecidableEq, Repr

/-- The first load/dynamic-power `getStatement` call (printed as the BIG
cluster check). -/
def bigCall : Call :=
  { method := "getStatement",
    statement := "((IN:load0 + IN:load1 + IN:load2 + IN:load3) == 0)                 & (IN:dynamic_power > 0)",
    reference := true,
    select := SelectArg.str "000000f0" }

/-- The second load/dynamic-power `getStatement` call (printed as the
LITTLE cluster check); transcribed character by character from its own
source lines. -/
def littleCall : Call :=
  { method := "getStatement",
    statement := "((IN:load0 + IN:load1 + IN:load2 + IN:load3) == 0)                 & (IN:dynamic_power > 0)",
    reference := true,
    select := SelectArg.str "000000f0" }

/-- The governor/sustainable-power `getStatement` call. -/
def govCall : Call :=
  { method := "getStatement",
    statement := "(GOVERNOR:current_temperature > CONTROL_TEMP) &            (PID:output > SUSTAINABLE_POWER)",
    reference := true,
    select := SelectArg.num 0 }

/-- The 95th-percentile `assertStatement` call. -/
def pctCall : Call :=
  { method := "assertStatement",
    statement := "numpy.percentile(THERMAL:temp, 95) < (CONTROL_TEMP + TEMP_MARGIN)",
    reference := false,
    select := SelectArg.noSelect }

/-- The mean-temperature `assertStatement` call. -/
def meanCall : Call :=
  { method := "assertStatement",
    statement := "numpy.mean(THERMAL:temp) <= CONTROL_TEMP",
    reference := false,
    select := SelectArg.num 0 }

/-- The standard-deviation-percentage `getStatement` call (its value is
displayed, not compared). -/
def stdCall : Call :=
  { method := "getStatement",
    statement := "(numpy.std(THERMAL:temp) * 100.0) / numpy.mean(THERMAL:temp)",
    reference := false,
    select := SelectArg.num 0 }

/-- The notebook's top-level statements, cell by cell. -/
def thermalNotebook : List Stmt :=
  [Stmt.importModule "trappy",
   Stmt.assign "config",
   Stmt.configSet "THERMAL" (ConfigValue.event TrappyEventClass.thermal),
   Stmt.configSet "OUT" (ConfigValue.event TrappyEventClass.cpuOutPower),
   Stmt.configSet "IN" (ConfigValue.event TrappyEventClass.cpuInPower),
   Stmt.configSet "PID" (ConfigValue.event TrappyEventClass.pidController),
   Stmt.configSet "GOVERNOR" (ConfigValue.event TrappyEventClass.thermalGovernor),
   Stmt.configSet "CONTROL_TEMP" (ConfigValue.num 77000),
   Stmt.configSet "TEMP_MARGIN" (ConfigValue.num 2500),
   Stmt.configSet "SUSTAINABLE_POWER" (ConfigValue.num 2500),
   Stmt.configSet "EXPECTED_TEMP_QRT" (ConfigValue.num 95),
   Stmt.configSet "EXPECTED_STD_PCT" (ConfigValue.num 5),
   Stmt.assign "TRACE",
   Stmt.loadRun "run" "/Users/kapileshwarsingh/AnalysisRawData/LPC/thermal" "SomeBenchMark",
   Stmt.importModule "bart.common.Analyzer",
   Stmt.mkAnalyzer "t" "run" "config",
   Stmt.assign "BIG",
   Stmt.assign "LITTLE",
   Stmt.callStmt (some "result") bigCall,
   Stmt.printIfElse "result" bigFailMsg bigPassMsg,
   Stmt.callStmt (some "result") littleCall,
   Stmt.printIfElse "result" littleFailMsg littlePassMsg,
   Stmt.callStmt (some "result") govCall,
   Stmt.printIfElse "result" govFailMsg govPassMsg,
   Stmt.callStmt none pctCall,
   Stmt.callStmt none meanCall,
   Stmt.callStmt none stdCall]

/-- The module imported by an import statement, if any. -/
def importOf : Stmt → Option String
  | Stmt.importModule m => some m
  | _ => none

/-- The call made by a statement, if any. -/
def callOf : Stmt → Option Call
  | Stmt.callStmt _ c => some c
  | _ => none

/-- The config binding made by a statement, if any. -/
def configSetOf : Stmt → Option (String × ConfigValue)
  | Stmt.configSet k v => some (k, v)
  | _ => none

/-- Whether a statement is a statement-evaluation call. -/
def isCall : Stmt → Bool
  | Stmt.callStmt _ _ => true
  | _ => false

/-- Whether a statement is a config binding. -/
def isConfigSet : Stmt → Bool
  | Stmt.configSet _ _ => true
  | _ => false

/-- Whether a statement is the trace load (`trappy.Run` construction). -/
def isLoadRun : Stmt → Bool
  | Stmt.loadRun _ _ _ => true
  | _ => false

/-- Whether a statement is the Analyzer construction. -/
def isMkAnalyzer : Stmt → Bool
  | Stmt.mkAnalyzer _ _ _ => true
  | _ => false

/-- Whether a statement rebinds or mutates the named variable. -/
def touches : Stmt → String → Bool
  | Stmt.assign v, x => v == x
  | Stmt.configSet _ _, x => x == "config"
  | Stmt.loadRun v _ _, x => v == x
  | Stmt.mkAnalyzer v _ _, x => v == x
  | Stmt.callStmt (some v) _, x => v == x
  | _, _ => false

/-- Counts the calls that constitute assertions: every `assertStatement`
call, and every `getStatement` call whose bound result drives the
immediately following pass/fail print. -/
def countAssertions : List Stmt → Nat
  | [] => 0
  | Stmt.callStmt b c :: rest =>
      (if c.method == "assertStatement" then 1
       else
         match b, rest with
         | some v, Stmt.printIfElse w _ _ :: _ =>
             if c.method == "getStatement" && v == w then 1 else 0
         | _, _ => 0) + countAssertions rest
  | _ :: rest => countAssertions rest

/-- Whether `pat` is an initial segment of `s`, on character lists. -/
def charsStart : List Char → List Char → Bool
  | _, [] => true
  | [], _ :: _ => false
  | c :: cs, p :: ps => (c == p) && charsStart cs ps

/-- Whether `pat` occurs inside `s`, on character lists. -/
def charsContain : List Char → List Char → Bool
  | [], pat => pat.isEmpty
  | c :: cs, pat => charsStart (c :: cs) pat || charsContain cs pat

/-- Whether the string `s` starts with `pat`. -/
def strStarts (s pat : String) : Bool := charsStart s.data pat.data

/-- Whether `pat` occurs as a substring of `s`. -/
def strContains (s pat : String) : Bool := charsContain s.data pat.data

/-- The statements after the Analyzer construction. -/
def afterAnalyzer : List Stmt :=
  (thermalNotebook.dropWhile fun s => !isMkAnalyzer s).tail

/-- The fail/pass message pair of a pass/fail print statement, if any. -/
def printOf : Stmt → Option (String × String)
  | Stmt.printIfElse _ f p => some (f, p)
  | _ => none

/-- Whether a statement mentions `numpy` anywhere outside the statement
string of a call: in an imported module name, a variable name, a config
key, a path, a benchmark name, a method name, or a printed message. -/
def numpyOutsideStatement : Stmt → Bool
  | Stmt.importModule m => strContains m "numpy"
  | Stmt.assign v => strContains v "numpy"
  | Stmt.configSet k _ => strContains k "numpy"
  | Stmt.loadRun v p b =>
      strContains v "numpy" || strContains p "numpy" || strContains b "numpy"
  | Stmt.mkAnalyzer v r c =>
      strContains v "numpy" || strContains r "numpy" || strContains c "numpy"
  | Stmt.callStmt b c =>
      (match b with
       | some v => strContains v "numpy"
       | none => false) || strContains c.method "numpy"
  | Stmt.printIfElse v f p =>
      strContains v "numpy" || strContains f "numpy" || strContains p "numpy"

/-- A small concrete trace used to instantiate the universally
quantified theorems below: one idle BIG row, one loaded LITTLE row, one
cool governor row and one temperature reading. -/
def sampleRun : Run :=
  { inPower := [CpuInPowerSample.mk "000000f0" 0 0 0 0 0,
                CpuInPowerSample.mk "0000000f" 10 0 0 0 200],
    govPid := [GovPidSample.mk 0 76000 2000],
    thermal := [ThermalSample.mk 0 70000] }

/-! ### Helper lemmas -/

theorem checkLines_eq {α : Type} (r : List α) (f p : String) :
    checkLines r f p = [if r.isEmpty then p else f] := by
  cases r <;> rfl

theorem checkLines_pass_iff {α : Type} (r : List α) (f p : String) (hfp : f ≠ p) :
    checkLines r f p = [p] ↔ r = [] := by
  rw [checkLines_eq]
  cases r with
  | nil => simp
  | cons a as => simp [hfp]

theorem checkLines_fail_iff {α : Type} (r : List α) (f p : String) (hfp : f ≠ p) :
    checkLines r f p = [f] ↔ r ≠ [] := by
  rw [checkLines_eq]
  cases r with
  | nil => simp [Ne.symm hfp]
  | cons a as => simp

theorem checkLines_mem_spec {α : Type} (r : List α) (f p l : String)
    (hp : strStarts p "PASS:" = true) (hpf : strStarts p "FAIL:" = false)
    (hf : strStarts f "FAIL:" = true) (hfp : strStarts f "PASS:" = false)
    (hl : l ∈ checkLines r f p) :
    (strStarts l "PASS:" = true ↔ r = []) ∧ (strStarts l "FAIL:" = true ↔ r ≠ []) := by
  rw [checkLines_eq] at hl
  cases r with
  | nil =>
      simp at hl
      subst hl
      simp [hp, hpf]
  | cons a as =>
      simp at hl
      subst hl
      simp [hf, hfp]

theorem configNum_control_temp (q s : Int) :
    configNum (thermalConfigWith q s) "CONTROL_TEMP" = 77000 := rfl

theorem configNum_temp_margin (q s : Int) :
    configNum (thermalConfigWith q s) "TEMP_MARGIN" = 2500 := rfl

theorem configNum_sustainable_power (q s : Int) :
    configNum (thermalConfigWith q s) "SUSTAINABLE_POWER" = 2500 := rfl

/-! ### Claims -/

/-- Claim C1: the BIG-cluster load/dynamic-power check prints its PASS
line exactly when the result of the modelled
`getStatement("((IN:load0 + IN:load1 + IN:load2 + IN:load3) == 0) &
(IN:dynamic_power > 0)", reference=True, select=BIG)` call has length
zero, which holds exactly when no selected sample has the sum of the
four loads equal to zero together with strictly positive dynamic power;
otherwise it prints its FAIL line. -/
theorem big_check_pass_iff_empty (run : Run) :
    (bigClusterLines run = [bigPassMsg] ↔
       ((t run).loadPowerStatement BIG).length = 0)
    ∧ (((t run).loadPowerStatement BIG).length = 0 ↔
        ∀ s ∈ run.inPower, s.cpus = BIG →
          ¬ (s.load0 + s.load1 + s.load2 + s.load3 = 0 ∧ 0 < s.dynamic_power))
    ∧ (bigClusterLines run = [bigPassMsg] ∨ bigClusterLines run = [bigFailMsg]) := by
  refine ⟨?_, ?_, ?_⟩
  · rw [bigClusterLines, checkLines_pass_iff _ _ _ (by decide), List.length_eq_zero]
  · rw [List.length_eq_zero]
    simp only [Analyzer.loadPowerStatement, t, List.filter_eq_nil_iff, List.mem_filter,
      beq_iff_eq, decide_eq_true_eq, and_imp]
  · rw [bigClusterLines, checkLines_eq]
    cases ((t run).loadPowerStatement BIG).isEmpty <;> simp

/-- Claim C1, instantiated on the concrete trace `sampleRun`. -/
theorem big_check_pass_iff_empty_witness :
    (bigClusterLines sampleRun = [bigPassMsg] ↔
       ((t sampleRun).loadPowerStatement BIG).length = 0)
    ∧ (((t sampleRun).loadPowerStatement BIG).length = 0 ↔
        ∀ s ∈ sampleRun.inPower, s.cpus = BIG →
          ¬ (s.load0 + s.load1 + s.load2 + s.load3 = 0 ∧ 0 < s.dynamic_power))
    ∧ (bigClusterLines sampleRun = [bigPassMsg] ∨
       bigClusterLines sampleRun = [bigFailMsg]) :=
  big_check_pass_iff_empty sampleRun

/-- Claim C2: the percentile assertion returns `true` exactly when the
95th percentile of the `THERMAL` temp series is strictly below
`CONTROL_TEMP + TEMP_MARGIN = 77000 + 2500 = 79500`, and `false`
otherwise. -/
theorem percentile_assert_true_iff (run : Run) :
    ((t run).percentileAssert = true ↔
       npPercentile (run.thermal.map ThermalSample.temp) 95 < 79500)
    ∧ ((t run).percentileAssert = false ↔
       ¬ npPercentile (run.thermal.map ThermalSample.temp) 95 < 79500) := by
  have h : (t run).percentileAssert =
      decide (npPercentile (run.thermal.map ThermalSample.temp) 95 <
        ((79500 : Int) : ℚ)) := rfl
  have hc : ((79500 : Int) : ℚ) = (79500 : ℚ) := by norm_num
  rw [h, hc]
  constructor <;> simp

/-- Claim C3 as frozen is false on the code: the number of
assertion-constituting statement-evaluation calls is not four. -/
theorem assertion_call_count_ne_four :
    ¬ countAssertions thermalNotebook = 4 := by decide

/-- Claim C3 amended: the notebook makes exactly five
assertion-constituting statement-evaluation calls — three `getStatement`
calls whose bound result drives a pass/fail print and two
`assertStatement` calls. -/
theorem assertion_call_count_eq_five :
    countAssertions thermalNotebook = 5 := by decide

/-- Claim C4: each of the three getStatement-based checks prints exactly
one line, and that line begins with `PASS:` exactly when the returned
result is empty and with `FAIL:` exactly when it is non-empty; the only
outcome-handling statements in the notebook are the three pass/fail
prints with those message pairs. -/
theorem checks_print_single_line (run : Run) :
    ((bigClusterLines run).length = 1 ∧ (littleLabelledLines run).length = 1 ∧
       (governorLines run).length = 1)
    ∧ (∀ l ∈ bigClusterLines run,
         (strStarts l "PASS:" = true ↔ (t run).loadPowerStatement BIG = []) ∧
         (strStarts l "FAIL:" = true ↔ (t run).loadPowerStatement BIG ≠ []))
    ∧ (∀ l ∈ littleLabelledLines run,
         (strStarts l "PASS:" = true ↔ (t run).loadPowerStatement BIG = []) ∧
         (strStarts l "FAIL:" = true ↔ (t run).loadPowerStatement BIG ≠ []))
    ∧ (∀ l ∈ governorLines run,
         (strStarts l "PASS:" = true ↔ (t run).governorStatement = []) ∧
         (strStarts l "FAIL:" = true ↔ (t run).governorStatement ≠ []))
    ∧ (thermalNotebook.filterMap printOf =
         [(bigFailMsg, bigPassMsg), (littleFailMsg, littlePassMsg),
          (govFailMsg, govPassMsg)]) := by
  refine ⟨⟨?_, ?_, ?_⟩, ?_, ?_, ?_, by decide⟩
  · rw [bigClusterLines, checkLines_eq]; rfl
  · rw [littleLabelledLines, checkLines_eq]; rfl
  · rw [governorLines, checkLines_eq]; rfl
  · intro l hl
    exact checkLines_mem_spec _ _ _ _ (by decide) (by decide) (by decide) (by decide) hl
  · intro l hl
    exact checkLines_mem_spec _ _ _ _ (by decide) (by decide) (by decide) (by decide) hl
  · intro l hl
    exact checkLines_mem_spec _ _ _ _ (by decide) (by decide) (by decide) (by decide) hl

/-- Claim C4, instantiated on the concrete trace `sampleRun`. -/
theorem checks_print_single_line_witness :
    ((bigClusterLines sampleRun).length = 1 ∧
       (littleLabelledLines sampleRun).length = 1 ∧
       (governorLines sampleRun).length = 1)
    ∧ (∀ l ∈ bigClusterLines sampleRun,
         (strStarts l "PASS:" = true ↔ (t sampleRun).loadPowerStatement BIG = []) ∧
         (strStarts l "FAIL:" = true ↔ (t sampleRun).loadPowerStatement BIG ≠ []))
    ∧ (∀ l ∈ littleLabelledLines sampleRun,
         (strStarts l "PASS:" = true ↔ (t sampleRun).loadPowerStatement BIG = []) ∧
         (strStarts l "FAIL:" = true ↔ (t sampleRun).loadPowerStatement BIG ≠ []))
    ∧ (∀ l ∈ governorLines sampleRun,
         (strStarts l "PASS:" = true ↔ (t sampleRun).governorStatement = []) ∧
         (strStarts l "FAIL:" = true ↔ (t sampleRun).governorStatement ≠ []))
    ∧ (thermalNotebook.filterMap printOf =
         [(bigFailMsg, bigPassMsg), (littleFailMsg, littlePassMsg),
          (govFailMsg, govPassMsg)]) :=
  checks_print_single_line sampleRun

/-- Claim C5: the notebook's config binds exactly the five short names
THERMAL, OUT, IN, PID and GOVERNOR to the corresponding trappy event
classes, in that order; the transcription's config bindings build
exactly `thermalConfig`; every config binding precedes the first
statement-evaluation call; and the Analyzer is constructed from `run`
and that config, which every Analyzer it builds carries. -/
theorem config_maps_five_event_classes :
    (configEvents thermalConfig =
       [("THERMAL", TrappyEventClass.thermal), ("OUT", TrappyEventClass.cpuOutPower),
        ("IN", TrappyEventClass.cpuInPower), ("PID", TrappyEventClass.pidController),
        ("GOVERNOR", TrappyEventClass.thermalGovernor)])
    ∧ (thermalNotebook.filterMap configSetOf = thermalConfig)
    ∧ ((thermalNotebook.dropWhile fun s => !isCall s).filter isConfigSet = [])
    ∧ (Stmt.mkAnalyzer "t" "run" "config" ∈ thermalNotebook)
    ∧ (∀ run : Run, (t run).config = thermalConfig) :=
  ⟨by decide, by decide, by decide, by decide, fun _ => rfl⟩

/-- Claim C6: the notebook loads the trace exactly once, constructs
exactly one Analyzer (over `run` and `config`), and no statement after
the Analyzer construction rebinds or mutates `run`, `config` or `t`. -/
theorem trace_loaded_once_analyzer_unchanged :
    (thermalNotebook.filter isLoadRun =
       [Stmt.loadRun "run" "/Users/kapileshwarsingh/AnalysisRawData/LPC/thermal"
          "SomeBenchMark"])
    ∧ (thermalNotebook.filter isMkAnalyzer = [Stmt.mkAnalyzer "t" "run" "config"])
    ∧ ((afterAnalyzer.all fun s =>
          !(touches s "run" || touches s "config" || touches s "t")) = true) := by
  decide

/-- Claim C7: the notebook imports exactly the two modules `trappy` and
`bart.common.Analyzer`; no statement mentions numpy outside the
statement strings handed to the evaluator; and the calls whose statement
strings mention numpy are the two `assertStatement` calls and the final
`getStatement` call. -/
theorem imports_exactly_two_and_delegates :
    (thermalNotebook.filterMap importOf = ["trappy", "bart.common.Analyzer"])
    ∧ ((thermalNotebook.all fun s => !numpyOutsideStatement s) = true)
    ∧ (((thermalNotebook.filterMap callOf).filter fun c =>
          strContains c.statement "numpy").map Call.method =
        ["assertStatement", "assertStatement", "getStatement"]) :=
  ⟨by decide, by decide, by decide⟩

/-- Claim C8: the second (LITTLE-labelled) dynamic-power check invokes
`getStatement` with arguments character-identical to the first
(BIG-cluster) check including `select=BIG`; its pass/fail outcome
therefore always equals the BIG-cluster outcome; and no call in the
notebook uses the LITTLE binding, whether as `select` or inside a
statement string. -/
theorem little_check_duplicates_big :
    (littleCall = bigCall)
    ∧ (∀ run : Run,
         (littleLabelledLines run = [littlePassMsg] ↔
            bigClusterLines run = [bigPassMsg]) ∧
         (littleLabelledLines run = [littleFailMsg] ↔
            bigClusterLines run = [bigFailMsg]))
    ∧ (∀ c ∈ thermalNotebook.filterMap callOf,
         c.select ≠ SelectArg.str LITTLE ∧ strContains c.statement LITTLE = false) := by
  refine ⟨by decide, ?_, by decide⟩
  intro run
  constructor
  · rw [littleLabelledLines, bigClusterLines, checkLines_pass_iff _ _ _ (by decide),
      checkLines_pass_iff _ _ _ (by decide)]
  · rw [littleLabelledLines, bigClusterLines, checkLines_fail_iff _ _ _ (by decide),
      checkLines_fail_iff _ _ _ (by decide)]

/-- Claim C8, instantiated on the concrete trace `sampleRun`. -/
theorem little_check_duplicates_big_witness :
    (littleLabelledLines sampleRun = [littlePassMsg] ↔
       bigClusterLines sampleRun = [bigPassMsg]) ∧
    (littleLabelledLines sampleRun = [littleFailMsg] ↔
       bigClusterLines sampleRun = [bigFailMsg]) :=
  little_check_duplicates_big.2.1 sampleRun

/-- Claim C9: the notebook's visible output does not depend on the
config entries EXPECTED_TEMP_QRT and EXPECTED_STD_PCT — two executions
on the same trace whose configs differ only in those two values produce
identical output; the percentile statement hard-codes the literal 95 and
no statement string mentions either entry. -/
theorem output_independent_of_expected_entries :
    (∀ (sq : ℚ → ℚ) (run : Run) (q1 s1 q2 s2 : Int),
       notebookOutputWith sq (thermalConfigWith q1 s1) run =
       notebookOutputWith sq (thermalConfigWith q2 s2) run)
    ∧ (strContains pctCall.statement "95" = true)
    ∧ (∀ c ∈ thermalNotebook.filterMap callOf,
         strContains c.statement "EXPECTED_TEMP_QRT" = false ∧
         strContains c.statement "EXPECTED_STD_PCT" = false) :=
  ⟨fun _ _ _ _ _ _ => rfl, by decide, by decide⟩

/-- Claim C9, instantiated at concrete configs and trace. -/
theorem output_independent_witness :
    notebookOutputWith id (thermalConfigWith 0 0) sampleRun =
    notebookOutputWith id (thermalConfigWith 95 5) sampleRun :=
  output_independent_of_expected_entries.1 id sampleRun 0 0 95 5

/-- Claim C10: the governor check prints its PASS line exactly when no
selected sample has current temperature strictly above
`CONTROL_TEMP = 77000` together with PID output strictly above
`SUSTAINABLE_POWER = 2500`; otherwise it prints its FAIL line; and a
sample whose granted power exactly equals `SUSTAINABLE_POWER` never
satisfies the statement, so it cannot cause a FAIL. -/
theorem governor_check_pass_iff (run : Run) :
    (governorLines run = [govPassMsg] ↔
       ∀ s ∈ run.govPid, s.id = 0 →
         ¬ (77000 < s.current_temperature ∧ 2500 < s.output))
    ∧ (governorLines run = [govPassMsg] ∨ governorLines run = [govFailMsg])
    ∧ (∀ (i c : Int), governorPred thermalConfig (GovPidSample.mk i c 2500) = false) := by
  refine ⟨?_, ?_, ?_⟩
  · rw [governorLines, checkLines_pass_iff _ _ _ (by decide)]
    simp only [Analyzer.governorStatement, t, governorPred, List.filter_eq_nil_iff,
      List.mem_filter, beq_iff_eq, decide_eq_true_eq, and_imp, thermalConfig]
    rfl
  · rw [governorLines, checkLines_eq]
    cases ((t run).governorStatement).isEmpty <;> simp
  · intro i c
    simp [governorPred, thermalConfig, configNum_control_temp, configNum_sustainable_power]

/-- Claim C10, instantiated on the concrete trace `sampleRun`. -/
theorem governor_check_pass_iff_witness :
    (governorLines sampleRun = [govPassMsg] ↔
       ∀ s ∈ sampleRun.govPid, s.id = 0 →
         ¬ (77000 < s.current_temperature ∧ 2500 < s.output))
    ∧ (governorLines sampleRun = [govPassMsg] ∨
       governorLines sampleRun = [govFailMsg])
    ∧ (∀ (i c : Int), governorPred thermalConfig (GovPidSample.mk i c 2500) = false) :=
  governor_check_pass_iff sampleRun

end ThermalNB
